import Mathlib

/-!
Verification development for the latexfogel sandboxed render orchestration
subsystem. The definitions below are a shallow embedding of the Rust sources:

* `src/latex.rs` — the renderer-side protocol encoder (`run_renderer`), the
  supervisor (`render_latex`) with its pull / spawn / timeout / kill /
  decode pipeline, and the deterministic container naming.
* `src/docker.rs` — the generic `DockerCommand::run` used by the typst path.
* `src/discord.rs` — the correlation and widen caches, the context-menu
  render handler, and the delete / widen button handlers with their
  ownership checks.

External effects (docker subprocesses, the chat gateway) are modelled by an
explicit environment record describing the outcome of each effectful step,
and by an explicit trace of emitted effects/events, so that the control flow
of the source functions becomes a pure function of the environment.
-/

namespace Latexfogel

/-! ## Process output and result types -/

/-- Captured output of an awaited subprocess (`std::process::Output`).
`stdout` is the raw byte stream used by the protocol decoder;
`statusText`, `stdoutText` and `stderrText` are the textual renderings
(`Display` of the exit status, `String::from_utf8_lossy` of the streams)
that the source interpolates into error messages. -/
structure ProcOutput where
  exitSuccess : Bool
  statusText : String
  stdout : List Nat
  stdoutText : String
  stderrText : String
deriving Repr, DecidableEq

/-- One constructor per distinct infrastructure `bail!` site in
`latex.rs` / `docker.rs`. -/
inductive InfraKind where
  | pullFailure
  | spawnFailure
  | waitFailure
  | timeout
  | killFailed
  | nonZeroExit
  | framing
deriving Repr, DecidableEq

/-- Result of one render invocation as seen by the caller of
`render_latex`: success with image bytes and overflow flag, an in-protocol
engine error carrying the raw bytes after the status byte, or an
infrastructure error carrying the `anyhow` message string. -/
inductive RenderResult where
  | ok (png : List Nat) (overrunHbox : Bool)
  | engineError (msgBytes : List Nat)
  | infraError (kind : InfraKind) (msg : String)
deriving Repr, DecidableEq

def isEngineError : RenderResult → Bool
  | .engineError _ => true
  | _ => false

def isOk : RenderResult → Bool
  | .ok _ _ => true
  | _ => false

/-! ## Error message builders (the exact `bail!` / `format!` strings) -/

def pullFailureMsg (stdoutText stderrText : String) : String :=
  "Could not pull renderer image.\nStdout:\n" ++ stdoutText ++ "\nStderr:\n" ++ stderrText

def nonZeroExitMsg (statusText : String) : String :=
  "Renderer exited with non-zero exit code " ++ statusText

def framingMsg : String := "Renderer output not long enough"

def timeoutMsg : String := "Timeout reached."

def killFailedMsg : String := "could not kill renderer"

/-- `docker.rs`: message of the non-zero-exit `bail!` in `DockerCommand::run`. -/
def runnerDiedMsg (statusText stdoutText stderrText : String) : String :=
  "Runner died with " ++ statusText ++ "\nStdout:\n" ++ stdoutText ++ "\nStderr:\n" ++ stderrText

/-- `docker.rs`: message of the pull-failure `bail!` (`{image:?}` debug-quotes). -/
def pullRunnerFailureMsg (image stdoutText stderrText : String) : String :=
  "Failed to pull runner image \x22" ++ image ++ "\x22\nStdout:\n" ++ stdoutText
    ++ "\nStderr:\n" ++ stderrText

/-- `docker.rs`: message of the kill-failure `bail!` in `kill_runner`;
the interpolated streams are those of the `docker kill` command itself. -/
def killRunnerFailedMsg (name killStdoutText killStderrText : String) : String :=
  "Failed to kill runner \x22" ++ name ++ "\x22\nStdout:\n" ++ killStdoutText
    ++ "\nStderr:\n" ++ killStderrText

/-- `msg` embeds `needle` verbatim as a contiguous substring. -/
def containsVerbatim (needle msg : String) : Prop :=
  ∃ pre post, msg = pre ++ needle ++ post

/-! ## Render protocol codec -/

/-- Renderer-side encoder, success path of `run_renderer` in `latex.rs`:
status byte `0`, then the overflow byte (`1`/`0`), then the raw png bytes. -/
def encodeSuccess (overrunHbox : Bool) (png : List Nat) : List Nat :=
  0 :: (if overrunHbox then 1 else 0) :: png

/-- Supervisor-side decoder: the tail of `render_latex` (`latex.rs`
lines 137–168) applied to a captured `ProcOutput`.
Order of checks as in the source: non-zero exit, then `stdout.len() < 3`,
then `stdout[0] == 1` (engine error, surfacing `stdout[1..]`), else
success with `overrun_hbox = stdout[1] != 0` and png `stdout[2..]`. -/
def decodeRendererOutput (out : ProcOutput) : RenderResult :=
  if !out.exitSuccess then
    .infraError .nonZeroExit (nonZeroExitMsg out.statusText)
  else if out.stdout.length < 3 then
    .infraError .framing framingMsg
  else if out.stdout.headD 0 == 1 then
    .engineError (out.stdout.drop 1)
  else
    .ok (out.stdout.drop 2) (out.stdout.getD 1 0 != 0)

/-! ## Sandbox runner: effects, environment, `render_latex` -/

/-- Docker subcommands issued by the supervisor, in order. -/
inductive DockerEffect where
  | pull (image : String)
  | spawn (name : String)
  | kill (name : String)
deriving Repr, DecidableEq

def isSpawnEffect : DockerEffect → Bool
  | .spawn _ => true
  | _ => false

def isKillEffect : DockerEffect → Bool
  | .kill _ => true
  | _ => false

/-- Container name used both by `spawn_renderer_process`
(`--name=slave-{context_id}`) and by `kill_renderer_process`
(`docker kill slave-{context_id}`). -/
def containerName (contextId : Nat) : String :=
  "slave-" ++ toString contextId

/-- Outcome of every effectful step of one `render_latex` invocation.
`spawnOk` covers the `spawn` call together with the two stdin writes
(all three propagate through the same `?`); `waitOk` is the io-level
result inside the `Ok` branch of the timeout race; `killOk` is the exit
status of the `docker kill` issued on deadline expiry. -/
structure RenderEnv where
  pullOk : Bool
  pullStdoutText : String
  pullStderrText : String
  spawnOk : Bool
  spawnErrMsg : String
  timedOut : Bool
  waitOk : Bool
  waitErrMsg : String
  killOk : Bool
  output : ProcOutput
deriving Repr, DecidableEq

/-- `render_latex` (`latex.rs` lines 115–168): pull the image, spawn the
container, race completion against the 15 s deadline (on expiry: kill by
container name, then fail), propagate wait errors, then decode the
captured output. Returns the trace of docker effects and the result. -/
def render_latex (contextId : Nat) (image : String) (env : RenderEnv) :
    List DockerEffect × RenderResult :=
  if !env.pullOk then
    ([.pull image],
      .infraError .pullFailure (pullFailureMsg env.pullStdoutText env.pullStderrText))
  else if !env.spawnOk then
    ([.pull image, .spawn (containerName contextId)],
      .infraError .spawnFailure env.spawnErrMsg)
  else if env.timedOut then
    ([.pull image, .spawn (containerName contextId), .kill (containerName contextId)],
      if env.killOk then .infraError .timeout timeoutMsg
      else .infraError .killFailed killFailedMsg)
  else if !env.waitOk then
    ([.pull image, .spawn (containerName contextId)],
      .infraError .waitFailure env.waitErrMsg)
  else
    ([.pull image, .spawn (containerName contextId)], decodeRendererOutput env.output)

/-! ## `DockerCommand::run` (`docker.rs`, the typst path) -/

/-- Outcomes of the effectful steps of one `DockerCommand::run` call.
`killStdoutText`/`killStderrText` capture the `docker kill` command's own
output, which its failure message interpolates. -/
structure RunnerEnv where
  pullOk : Bool
  pullStdoutText : String
  pullStderrText : String
  spawnOk : Bool
  spawnErrMsg : String
  timedOut : Bool
  waitOk : Bool
  waitErrMsg : String
  killOk : Bool
  killStdoutText : String
  killStderrText : String
  output : ProcOutput
deriving Repr, DecidableEq

/-- `DockerCommand::run` (`docker.rs` lines 37–61): pull, spawn (writing the
input), race against the 15 s deadline with kill-by-name on expiry, and
report a non-zero exit as an error whose message interpolates the captured
stdout/stderr; a successful zero exit returns the output unchanged. -/
def DockerCommand_run (image name : String) (env : RunnerEnv) :
    List DockerEffect × Except String ProcOutput :=
  if !env.pullOk then
    ([.pull image],
      .error (pullRunnerFailureMsg image env.pullStdoutText env.pullStderrText))
  else if !env.spawnOk then
    ([.pull image, .spawn name], .error env.spawnErrMsg)
  else if env.timedOut then
    ([.pull image, .spawn name, .kill name],
      if env.killOk then .error "Timeout reached"
      else .error (killRunnerFailedMsg name env.killStdoutText env.killStderrText))
  else if !env.waitOk then
    ([.pull image, .spawn name], .error env.waitErrMsg)
  else if !env.output.exitSuccess then
    ([.pull image, .spawn name],
      .error (runnerDiedMsg env.output.statusText env.output.stdoutText
        env.output.stderrText))
  else
    ([.pull image, .spawn name], .ok env.output)

/-! ## Custom ids: decimal rendering and the delete-id parse
(`discord.rs`: `button_delete`, `button_wider`, `handle_delete_button_click`) -/

/-- The character of a decimal digit (`0`–`9`). -/
def digitChar (d : Nat) : Char := Char.ofNat (48 + d)

/-- Fuel-driven accumulator loop producing the decimal digits of `n`
(most significant first) in front of `acc`; structural in the fuel so it
evaluates by reduction. Adequate fuel is any bound `n ≤ fuel`. -/
def natDecimalAux : Nat → Nat → List Char → List Char
  | 0, _, acc => acc
  | fuel + 1, n, acc =>
    if n = 0 then acc
    else natDecimalAux fuel (n / 10) (digitChar (n % 10) :: acc)

/-- Standard decimal rendering of a natural number, as Rust's
`format!("{}", n)` produces for `u64`: most-significant digit first,
no leading zeros, `0` rendered as `"0"`. -/
def natDecimalString (n : Nat) : String :=
  if n = 0 then "0" else ⟨natDecimalAux n n []⟩

/-- Custom id of a delete button: `format!("{DELETE_CUSTOM_ID}{}", owner.get())`
with `DELETE_CUSTOM_ID = "delete"`. -/
def deleteCustomId (owner : Nat) : String :=
  "delete" ++ natDecimalString owner

/-- Custom id of a widen button: `format!("{WIDEN_CUSTOM_ID}{}", owner.get())`
with `WIDEN_CUSTOM_ID = "widen"`. -/
def widenCustomId (owner : Nat) : String :=
  "widen" ++ natDecimalString owner

/-- One decimal digit character back to its value (`str::parse` digit step). -/
def parseDigit (c : Char) : Option Nat :=
  if 48 ≤ c.toNat ∧ c.toNat ≤ 57 then some (c.toNat - 48) else none

/-- All characters as decimal digits, or failure. -/
def parseDigitList : List Char → Option (List Nat)
  | [] => some []
  | c :: cs =>
    match parseDigit c, parseDigitList cs with
    | some d, some ds => some (d :: ds)
    | _, _ => none

/-- `str::parse::<u64>` on a plain digit string: non-empty, all digits,
value below `2^64`.  (Rust checks overflow at each accumulation step; for
digit strings the accumulator is monotone, so success is equivalent to the
final value fitting in `u64`.) -/
def parseU64 (s : List Char) : Option Nat :=
  if s = [] then none
  else
    match parseDigitList s with
    | none => none
    | some ds =>
      let v := Nat.ofDigits 10 ds.reverse
      if v < 2 ^ 64 then some v else none

/-- `str::strip_prefix` on character lists. -/
def stripPrefixChars : List Char → List Char → Option (List Char)
  | [], cs => some cs
  | _ :: _, [] => none
  | p :: ps, c :: cs => if p = c then stripPrefixChars ps cs else none

/-- The Authorization Gate's owner extraction in `handle_delete_button_click`:
`custom_id.strip_prefix("delete").unwrap().parse::<u64>().unwrap()`, with
`none` standing for the panic of either `unwrap`. -/
def extractDeleteOwner (customId : String) : Option Nat :=
  (stripPrefixChars "delete".data customId.data).bind parseU64

/-! ## Interaction correlation cache and bot handlers (`discord.rs`) -/

abbrev MessageId := Nat
abbrev UserId := Nat

/-- `WidenInfo`: owner of the original message and the LaTeX source used
to generate the original response. -/
structure WidenInfo where
  owner : UserId
  latex : String
deriving Repr, DecidableEq

/-- Extensional model of `HashMap` as an association list; `cacheInsert`
replaces any previous binding of the key, as `HashMap::insert` does. -/
abbrev Cache (β : Type) := List (MessageId × β)

def cacheGet {β : Type} (k : MessageId) (m : Cache β) : Option β :=
  (m.find? (fun p => p.1 == k)).map (·.2)

def cacheInsert {β : Type} (k : MessageId) (v : β) (m : Cache β) : Cache β :=
  (k, v) :: m.filter (fun p => p.1 != k)

/-- The two process-wide caches of `BotContext`. -/
structure BotState where
  renderedCache : Cache MessageId
  widenCache : Cache WidenInfo
deriving Repr, DecidableEq

def emptyBotState : BotState := ⟨[], []⟩

/-- Observable actions of the handlers toward the chat gateway / caches,
in program order. -/
inductive BotEvent where
  | deleteMessage (id : MessageId)
  | sendImageReply (png : List Nat) (buttons : List String)
  | sendErrorReply (err : RenderResult)
  | registerRendered (inbound response : MessageId)
  | registerWiden (key : MessageId) (info : WidenInfo)
  | editWithWideImage (png : List Nat) (buttons : List String)
  | answerUnknown
  | answerNotAllowed
deriving Repr, DecidableEq

/-- Environment of one `tex_context_menu` run: the outcome of the render,
the id Discord assigns to the single reply the handler sends, and whether
the best-effort delete of a previous response succeeded (the source
discards this result: `let _ = ... .await;`). -/
structure TexEnv where
  render : RenderResult
  responseId : MessageId
  deletePrevOk : Bool
deriving Repr, DecidableEq

/-- `tex_context_menu` (`discord.rs` lines 144–219): look up a previously
registered response for the inbound message and best-effort delete it;
render; on error send an error embed and register the reply id; on success
send the image (attaching delete+widen buttons if the render overflowed,
else the framework's `reply_callback` adds a lone delete button), register
the reply id, and — only if the render overflowed — register
`WidenInfo {owner = author, latex = content}` under `message.id`, the
**inbound** message id. -/
def tex_context_menu (author : UserId) (msgId : MessageId) (content : String)
    (env : TexEnv) (s : BotState) : BotState × List BotEvent :=
  let deleteEvents : List BotEvent :=
    match cacheGet msgId s.renderedCache with
    | some prev => [.deleteMessage prev]
    | none => []
  match env.render with
  | .ok png overrun =>
    let buttons :=
      if overrun then [deleteCustomId author, widenCustomId author]
      else [deleteCustomId author]
    let s1 : BotState :=
      { s with renderedCache := cacheInsert msgId env.responseId s.renderedCache }
    let evs1 := deleteEvents ++
      [.sendImageReply png buttons, .registerRendered msgId env.responseId]
    if overrun then
      ({ s1 with widenCache := cacheInsert msgId ⟨author, content⟩ s1.widenCache },
        evs1 ++ [.registerWiden msgId ⟨author, content⟩])
    else
      (s1, evs1)
  | err =>
    ({ s with renderedCache := cacheInsert msgId env.responseId s.renderedCache },
      deleteEvents ++ [.sendErrorReply err, .registerRendered msgId env.responseId])

/-- Outcome of one component-interaction dispatch. `panicked` marks the
`unwrap()` panics in the source (failed delete-id parse, failed widen
re-render). -/
inductive InteractionOutcome where
  | deleted
  | widened (png : List Nat)
  | notAllowed
  | unknownButton
  | panicked
  | ignored
deriving Repr, DecidableEq

/-- `handle_delete_button_click` (`discord.rs` lines 365–383): extract the
owner id from the custom id (panicking if either `unwrap` fails), delete
the button's message if the invoker is the owner, otherwise answer with the
not-allowed notice. Touches neither cache. -/
def handle_delete_button_click (invoker : UserId) (buttonMsgId : MessageId)
    (customId : String) (s : BotState) :
    BotState × List BotEvent × InteractionOutcome :=
  match extractDeleteOwner customId with
  | none => (s, [], .panicked)
  | some authorId =>
    if authorId == invoker then (s, [.deleteMessage buttonMsgId], .deleted)
    else (s, [.answerNotAllowed], .notAllowed)

/-- `handle_widen_button_click` (`discord.rs` lines 298–342): look up
`WidenInfo` under the id of the message the button sits on (the bot's
response); if absent, answer the unknown-button notice; if the cached
owner differs from the invoker, answer not-allowed; otherwise re-render
wide — `.unwrap()` in the source, so a failed re-render panics — and edit
the response, replacing the attachment and leaving only a delete button.
The custom id is never read; no cache is mutated. -/
def handle_widen_button_click (invoker : UserId) (buttonMsgId : MessageId)
    (reRender : RenderResult) (s : BotState) :
    BotState × List BotEvent × InteractionOutcome :=
  match cacheGet buttonMsgId s.widenCache with
  | none => (s, [.answerUnknown], .unknownButton)
  | some info =>
    if info.owner != invoker then (s, [.answerNotAllowed], .notAllowed)
    else
      match reRender with
      | .ok png _ => (s, [.editWithWideImage png [deleteCustomId invoker]], .widened png)
      | _ => (s, [], .panicked)

/-- The component-interaction dispatch in `handle_event` (`discord.rs`
lines 283–294): route by custom-id prefix, `"delete"` first. -/
def handle_component_interaction (invoker : UserId) (buttonMsgId : MessageId)
    (customId : String) (reRender : RenderResult) (s : BotState) :
    BotState × List BotEvent × InteractionOutcome :=
  if "delete".data.isPrefixOf customId.data then
    handle_delete_button_click invoker buttonMsgId customId s
  else if "widen".data.isPrefixOf customId.data then
    handle_widen_button_click invoker buttonMsgId reRender s
  else
    (s, [], .ignored)

/-! ## Helper lemmas: decimal rendering and parsing round-trip -/

theorem natDecimalAux_zero (fuel : Nat) (acc : List Char) :
    natDecimalAux fuel 0 acc = acc := by
  cases fuel <;> simp [natDecimalAux]

theorem natDecimalAux_spec :
    ∀ (fuel n : Nat) (acc : List Char), n ≤ fuel →
      natDecimalAux fuel n acc = (Nat.digits 10 n).reverse.map digitChar ++ acc := by
  intro fuel
  induction fuel with
  | zero =>
    intro n acc h
    have : n = 0 := Nat.le_zero.mp h
    subst this
    simp [natDecimalAux]
  | succ fuel ih =>
    intro n acc hn
    by_cases h0 : n = 0
    · subst h0
      simp [natDecimalAux]
    · have hdiv : n / 10 < n := Nat.div_lt_self (Nat.pos_of_ne_zero h0) (by norm_num)
      have hfuel : n / 10 ≤ fuel := by omega
      simp only [natDecimalAux, h0, if_false]
      rw [ih (n / 10) (digitChar (n % 10) :: acc) hfuel,
        Nat.digits_def' (by norm_num : (1 : Nat) < 10) (Nat.pos_of_ne_zero h0)]
      simp [List.map_append]

theorem parseDigit_digitChar {d : Nat} (hd : d < 10) :
    parseDigit (digitChar d) = some d := by
  interval_cases d <;> decide

theorem parseDigitList_map :
    ∀ ds : List Nat, (∀ d ∈ ds, d < 10) →
      parseDigitList (ds.map digitChar) = some ds := by
  intro ds
  induction ds with
  | nil => intro _; rfl
  | cons d ds ih =>
    intro h
    simp only [List.map_cons, parseDigitList]
    rw [parseDigit_digitChar (h d (List.mem_cons_self d ds)),
      ih (fun x hx => h x (List.mem_cons_of_mem d hx))]

theorem stripPrefixChars_append :
    ∀ p r : List Char, stripPrefixChars p (p ++ r) = some r := by
  intro p r
  induction p with
  | nil => rfl
  | cons c p ih => simp [stripPrefixChars, ih]

theorem parseU64_natDecimalString {n : Nat} (hn : n < 2 ^ 64) :
    parseU64 (natDecimalString n).data = some n := by
  by_cases h0 : n = 0
  · subst h0
    decide
  · unfold natDecimalString
    rw [if_neg h0]
    show parseU64 (natDecimalAux n n []) = some n
    rw [natDecimalAux_spec n n [] le_rfl, List.append_nil]
    have hne : (Nat.digits 10 n).reverse.map digitChar ≠ [] := by
      simp [Nat.digits_ne_nil_iff_ne_zero, h0]
    unfold parseU64
    rw [if_neg hne,
      parseDigitList_map ((Nat.digits 10 n).reverse)
        (fun d hd => Nat.digits_lt_base (by norm_num) (List.mem_reverse.mp hd))]
    simp only [List.reverse_reverse, Nat.ofDigits_digits]
    rw [if_pos hn]

theorem extractDeleteOwner_roundtrip {owner : Nat} (h : owner < 2 ^ 64) :
    extractDeleteOwner (deleteCustomId owner) = some owner := by
  unfold extractDeleteOwner deleteCustomId
  rw [String.data_append, stripPrefixChars_append]
  simpa using parseU64_natDecimalString h

/-! ## Claims -/

/-- Claim C10: for every delete-action identifier the program itself produces
(the fixed prefix `"delete"` followed by the decimal digits of a 64-bit owner
id), the Authorization Gate's extraction of the owner identity (strip the
prefix, parse the remainder as an integer) succeeds with exactly that owner;
the parse-failure panic branch is unreachable for such identifiers. -/
theorem c10_delete_id_extraction (owner : Nat) (h : owner < 2 ^ 64) :
    extractDeleteOwner (deleteCustomId owner) = some owner :=
  extractDeleteOwner_roundtrip h

/-- Witness for C10 at the concrete owner id 140579104222085121. -/
theorem c10_delete_id_extraction_witness :
    extractDeleteOwner (deleteCustomId 140579104222085121) = some 140579104222085121 :=
  c10_delete_id_extraction 140579104222085121 (by norm_num)

/-- Counterexample to claim C1: encoding a success outcome with overflow flag
true and an image of length 0 produces the 2-byte output `[0, 1]`, which the
supervisor's decoder (`output.stdout.len() < 3`) rejects as a framing
violation instead of round-tripping to Success — so the round-trip fails for
byte length 0. -/
theorem c1_counterexample :
    decodeRendererOutput ⟨true, "exit status: 0", encodeSuccess true [], "", ""⟩ =
      .infraError .framing framingMsg ∧
    decodeRendererOutput ⟨true, "exit status: 0", encodeSuccess true [], "", ""⟩ ≠
      .ok [] true := by
  decide

/-- Claim C1 as amended: for every overflow flag and every image byte sequence
of length at least 1, encoding a success outcome (status byte 0x00, overflow
byte, image bytes) and decoding the stream with the supervisor's decoder
yields Success with the identical bytes and flag; and any output of a
successfully exited renderer shorter than 3 bytes (in particular shorter
than 2) decodes to the framing InfrastructureError. -/
theorem c1_protocol_roundtrip :
    (∀ (overrun : Bool) (png : List Nat) (statusText stdoutText stderrText : String),
      png ≠ [] →
      decodeRendererOutput
          ⟨true, statusText, encodeSuccess overrun png, stdoutText, stderrText⟩ =
        .ok png overrun) ∧
    (∀ out : ProcOutput, out.exitSuccess = true → out.stdout.length < 3 →
      decodeRendererOutput out = .infraError .framing framingMsg) := by
  constructor
  · intro overrun png statusText stdoutText stderrText hpng
    cases png with
    | nil => exact absurd rfl hpng
    | cons b bs => cases overrun <;> simp [decodeRendererOutput, encodeSuccess]
  · intro out hexit hshort
    unfold decodeRendererOutput
    rw [hexit]
    simp [hshort]

/-- Witness for C1 as amended: a one-byte image round-trips, and the 1-byte
output `[0]` is a framing violation. -/
theorem c1_protocol_roundtrip_witness :
    decodeRendererOutput ⟨true, "s", encodeSuccess true [7], "", ""⟩ = .ok [7] true ∧
    decodeRendererOutput ⟨true, "s", [0], "", ""⟩ = .infraError .framing framingMsg :=
  ⟨c1_protocol_roundtrip.1 true [7] "s" "" "" (by decide),
    c1_protocol_roundtrip.2 ⟨true, "s", [0], "", ""⟩ rfl (by decide)⟩

/-- Counterexample to claim C8: on the output `[1, 65]` of a successfully
exited renderer — status byte 0x01 — the decoder reports the framing
InfrastructureError, not an EngineError, because the length check
`stdout.len() < 3` runs before the status byte is inspected; so EngineError
is not produced exactly when the exit is successful with status byte 0x01. -/
theorem c8_counterexample :
    decodeRendererOutput ⟨true, "exit status: 0", [1, 65], "", ""⟩ =
      .infraError .framing framingMsg ∧
    (⟨true, "exit status: 0", [1, 65], "", ""⟩ : ProcOutput).exitSuccess = true ∧
    (⟨true, "exit status: 0", [1, 65], "", ""⟩ : ProcOutput).stdout.headD 0 = 1 ∧
    isEngineError (decodeRendererOutput ⟨true, "exit status: 0", [1, 65], "", ""⟩) = false := by
  decide

/-- Claim C8 as amended: a non-zero exit status is always reported as the
non-zero-exit InfrastructureError (never an EngineError), and an EngineError
is produced exactly when the process exits successfully with at least 3
output bytes and protocol status byte 0x01, in which case the output bytes
after the status byte are surfaced verbatim as the error description. -/
theorem c8_error_classification :
    (∀ out : ProcOutput, out.exitSuccess = false →
      decodeRendererOutput out = .infraError .nonZeroExit (nonZeroExitMsg out.statusText)) ∧
    (∀ (out : ProcOutput) (m : List Nat),
      decodeRendererOutput out = .engineError m ↔
        out.exitSuccess = true ∧ 3 ≤ out.stdout.length ∧ out.stdout.headD 0 = 1 ∧
          m = out.stdout.drop 1) := by
  constructor
  · intro out h
    simp [decodeRendererOutput, h]
  · intro out m
    unfold decodeRendererOutput
    cases hexit : out.exitSuccess
    · simp
    · simp only [Bool.not_true, Bool.false_eq_true, if_false]
      by_cases hlen : out.stdout.length < 3
      · rw [if_pos hlen]
        constructor
        · intro h
          simp at h
        · rintro ⟨-, h3, -⟩
          omega
      · rw [if_neg hlen]
        by_cases hbit : out.stdout.headD 0 = 1
        · have hb : (out.stdout.headD 0 == 1) = true := beq_iff_eq.mpr hbit
          rw [hb, if_pos rfl]
          constructor
          · intro h
            injection h with h'
            subst h'
            exact ⟨by trivial, by omega, hbit, rfl⟩
          · rintro ⟨-, -, -, rfl⟩
            rfl
        · have hb : (out.stdout.headD 0 == 1) = false := beq_eq_false_iff_ne.mpr hbit
          rw [hb]
          simp only [Bool.false_eq_true, if_false]
          constructor
          · intro h
            simp at h
          · rintro ⟨-, -, h1, -⟩
            exact absurd h1 hbit

/-- Witness for C8 as amended: a non-zero exit on a protocol-shaped output is
the non-zero-exit InfrastructureError, and `[1, 65, 66]` from a successful
exit is the EngineError surfacing `[65, 66]`. -/
theorem c8_error_classification_witness :
    decodeRendererOutput ⟨false, "exit status: 137", [1, 65, 66], "", ""⟩ =
      .infraError .nonZeroExit (nonZeroExitMsg "exit status: 137") ∧
    decodeRendererOutput ⟨true, "exit status: 0", [1, 65, 66], "", ""⟩ =
      .engineError [65, 66] :=
  ⟨c8_error_classification.1 ⟨false, "exit status: 137", [1, 65, 66], "", ""⟩ rfl,
    (c8_error_classification.2 ⟨true, "exit status: 0", [1, 65, 66], "", ""⟩ [65, 66]).mpr
      ⟨rfl, by decide, rfl, rfl⟩⟩

/-- Counterexample to claim C5: a timed-out invocation whose `docker kill`
command itself fails resolves to the kill-failure error (`?` on
`kill_renderer_process` propagates `"could not kill renderer"` before
`bail!("Timeout reached.")` is reached), not to the Timeout error. -/
theorem c5_counterexample :
    (render_latex 3 "img"
        ⟨true, "", "", true, "", true, true, "", false, ⟨true, "", [], "", ""⟩⟩).2 =
      .infraError .killFailed killFailedMsg ∧
    RenderResult.infraError .killFailed killFailedMsg ≠
      .infraError .timeout timeoutMsg := by
  decide

/-- Claim C5 as amended: for every invocation that reaches the deadline race
(pull and spawn succeeded) and times out, exactly one forced kill is issued,
addressed to exactly the container name used when spawning (`slave-` plus the
correlation id), the container is spawned exactly once (no retry), the
invocation never resolves to Success, and it resolves to the Timeout error
when the kill command succeeds (and to the kill-failure error when the kill
command itself fails). -/
theorem c5_timeout_kill (cid : Nat) (img : String) (env : RenderEnv)
    (hp : env.pullOk = true) (hs : env.spawnOk = true) (ht : env.timedOut = true) :
    (render_latex cid img env).1.filter isKillEffect = [.kill (containerName cid)] ∧
    (render_latex cid img env).1.filter isSpawnEffect = [.spawn (containerName cid)] ∧
    (render_latex cid img env).2 =
      (if env.killOk then .infraError .timeout timeoutMsg
        else .infraError .killFailed killFailedMsg) ∧
    isOk (render_latex cid img env).2 = false := by
  unfold render_latex
  rw [hp, hs, ht]
  refine ⟨by simp [isKillEffect, isSpawnEffect], by simp [isKillEffect, isSpawnEffect], rfl, ?_⟩
  cases env.killOk <;> simp [isOk]

/-- Witness for C5 as amended at a concrete timed-out environment with a
successful kill. -/
theorem c5_timeout_kill_witness :
    (render_latex 3 "img"
        ⟨true, "", "", true, "", true, true, "", true, ⟨true, "", [], "", ""⟩⟩).1.filter
        isKillEffect = [.kill (containerName 3)] ∧
    (render_latex 3 "img"
        ⟨true, "", "", true, "", true, true, "", true, ⟨true, "", [], "", ""⟩⟩).1.filter
        isSpawnEffect = [.spawn (containerName 3)] ∧
    (render_latex 3 "img"
        ⟨true, "", "", true, "", true, true, "", true, ⟨true, "", [], "", ""⟩⟩).2 =
      (if (⟨true, "", "", true, "", true, true, "", true, ⟨true, "", [], "", ""⟩⟩ :
          RenderEnv).killOk then
        RenderResult.infraError .timeout timeoutMsg
       else .infraError .killFailed killFailedMsg) ∧
    isOk (render_latex 3 "img"
        ⟨true, "", "", true, "", true, true, "", true, ⟨true, "", [], "", ""⟩⟩).2 = false :=
  c5_timeout_kill 3 "img"
    ⟨true, "", "", true, "", true, true, "", true, ⟨true, "", [], "", ""⟩⟩ rfl rfl rfl

/-- Counterexample to claim C2: a pull failure is an infrastructure-class
failure, yet the message surfaced to the end user (`tex_context_menu` embeds
`error.to_string()` in the reply) contains the pull subprocess's captured
stdout — here the marker `SECRET-STDOUT` — verbatim. -/
theorem c2_counterexample :
    (render_latex 1 "img"
        ⟨false, "SECRET-STDOUT", "SECRET-STDERR", true, "", false, true, "", true,
          ⟨true, "", [], "", ""⟩⟩).2 =
      .infraError .pullFailure (pullFailureMsg "SECRET-STDOUT" "SECRET-STDERR") ∧
    containsVerbatim "SECRET-STDOUT" (pullFailureMsg "SECRET-STDOUT" "SECRET-STDERR") := by
  refine ⟨by decide, ?_⟩
  exact ⟨"Could not pull renderer image.\nStdout:\n", "\nStderr:\nSECRET-STDERR", by decide⟩

/-- Claim C2 as amended: on the LaTeX render path, the timeout, kill-failure,
framing and non-zero-exit infrastructure errors are surfaced with fixed
messages (depending at most on the exit-status text, never on captured
stdout/stderr); but a pull failure embeds the pull subprocess's captured
stdout and stderr verbatim in the surfaced message, and the shared docker
runner used by the typst path embeds the renderer's captured stdout and
stderr verbatim in its surfaced non-zero-exit message. -/
theorem c2_infra_error_surfacing :
    (∀ (cid : Nat) (img : String) (env : RenderEnv),
      env.pullOk = true → env.spawnOk = true → env.timedOut = false → env.waitOk = true →
      env.output.exitSuccess = false →
      (render_latex cid img env).2 =
        .infraError .nonZeroExit (nonZeroExitMsg env.output.statusText)) ∧
    (∀ (cid : Nat) (img : String) (env : RenderEnv),
      env.pullOk = true → env.spawnOk = true → env.timedOut = true →
      (render_latex cid img env).2 =
        (if env.killOk then .infraError .timeout timeoutMsg
          else .infraError .killFailed killFailedMsg)) ∧
    (∀ (cid : Nat) (img : String) (env : RenderEnv),
      env.pullOk = true → env.spawnOk = true → env.timedOut = false → env.waitOk = true →
      env.output.exitSuccess = true → env.output.stdout.length < 3 →
      (render_latex cid img env).2 = .infraError .framing framingMsg) ∧
    (∀ (cid : Nat) (img : String) (env : RenderEnv),
      env.pullOk = false →
      (render_latex cid img env).2 =
        .infraError .pullFailure (pullFailureMsg env.pullStdoutText env.pullStderrText)) ∧
    (∀ so se : String, containsVerbatim so (pullFailureMsg so se) ∧
      containsVerbatim se (pullFailureMsg so se)) ∧
    (∀ (img nm : String) (env : RunnerEnv),
      env.pullOk = true → env.spawnOk = true → env.timedOut = false → env.waitOk = true →
      env.output.exitSuccess = false →
      (DockerCommand_run img nm env).2 =
        .error (runnerDiedMsg env.output.statusText env.output.stdoutText
          env.output.stderrText)) ∧
    (∀ st so se : String, containsVerbatim so (runnerDiedMsg st so se) ∧
      containsVerbatim se (runnerDiedMsg st so se)) := by
  refine ⟨?_, ?_, ?_, ?_, ?_, ?_, ?_⟩
  · intro cid img env h1 h2 h3 h4 h5
    unfold render_latex decodeRendererOutput
    rw [h1, h2, h3, h4, h5]
    rfl
  · intro cid img env h1 h2 h3
    unfold render_latex
    rw [h1, h2, h3]
    simp
  · intro cid img env h1 h2 h3 h4 h5 h6
    unfold render_latex decodeRendererOutput
    rw [h1, h2, h3, h4, h5]
    simp [h6]
  · intro cid img env h1
    unfold render_latex
    rw [h1]
    simp
  · intro so se
    constructor
    · exact ⟨"Could not pull renderer image.\nStdout:\n", "\nStderr:\n" ++ se, by
        simp [pullFailureMsg, String.append_assoc]⟩
    · exact ⟨"Could not pull renderer image.\nStdout:\n" ++ so ++ "\nStderr:\n", "", by
        simp [pullFailureMsg, String.append_assoc]⟩
  · intro img nm env h1 h2 h3 h4 h5
    unfold DockerCommand_run
    rw [h1, h2, h3, h4, h5]
    simp
  · intro st so se
    constructor
    · exact ⟨"Runner died with " ++ st ++ "\nStdout:\n", "\nStderr:\n" ++ se, by
        simp [runnerDiedMsg, String.append_assoc]⟩
    · exact ⟨"Runner died with " ++ st ++ "\nStdout:\n" ++ so ++ "\nStderr:\n", "", by
        simp [runnerDiedMsg, String.append_assoc]⟩

/-- Witness for C2 as amended at concrete environments for each conjunct. -/
theorem c2_infra_error_surfacing_witness :
    (render_latex 1 "img"
        ⟨true, "", "", true, "", false, true, "", true,
          ⟨false, "exit status: 137", [], "D1", "D2"⟩⟩).2 =
      .infraError .nonZeroExit (nonZeroExitMsg "exit status: 137") ∧
    (render_latex 1 "img"
        ⟨true, "", "", true, "", true, true, "", true, ⟨true, "", [], "", ""⟩⟩).2 =
      (if (⟨true, "", "", true, "", true, true, "", true,
          ⟨true, "", [], "", ""⟩⟩ : RenderEnv).killOk then
        RenderResult.infraError .timeout timeoutMsg
       else .infraError .killFailed killFailedMsg) ∧
    (render_latex 1 "img"
        ⟨true, "", "", true, "", false, true, "", true,
          ⟨true, "exit status: 0", [0], "D1", "D2"⟩⟩).2 =
      .infraError .framing framingMsg ∧
    (render_latex 1 "img"
        ⟨false, "P1", "P2", true, "", false, true, "", true, ⟨true, "", [], "", ""⟩⟩).2 =
      .infraError .pullFailure (pullFailureMsg "P1" "P2") ∧
    (containsVerbatim "P1" (pullFailureMsg "P1" "P2") ∧
      containsVerbatim "P2" (pullFailureMsg "P1" "P2")) ∧
    (DockerCommand_run "img" "slave-typst-1"
        ⟨true, "", "", true, "", false, true, "", true, "", "",
          ⟨false, "exit status: 1", [], "T1", "T2"⟩⟩).2 =
      .error (runnerDiedMsg "exit status: 1" "T1" "T2") ∧
    (containsVerbatim "T1" (runnerDiedMsg "exit status: 1" "T1" "T2") ∧
      containsVerbatim "T2" (runnerDiedMsg "exit status: 1" "T1" "T2")) :=
  ⟨c2_infra_error_surfacing.1 1 "img" _ rfl rfl rfl rfl rfl,
    c2_infra_error_surfacing.2.1 1 "img" _ rfl rfl rfl,
    c2_infra_error_surfacing.2.2.1 1 "img" _ rfl rfl rfl rfl rfl (by decide),
    c2_infra_error_surfacing.2.2.2.1 1 "img" _ rfl,
    c2_infra_error_surfacing.2.2.2.2.1 "P1" "P2",
    c2_infra_error_surfacing.2.2.2.2.2.1 "img" "slave-typst-1" _ rfl rfl rfl rfl rfl,
    c2_infra_error_surfacing.2.2.2.2.2.2 "exit status: 1" "T1" "T2"⟩

/-! ## Helper lemmas: caches, dispatch, and the render handler -/

theorem cacheGet_insert_self {β : Type} (k : MessageId) (v : β) (m : Cache β) :
    cacheGet k (cacheInsert k v m) = some v := by
  simp [cacheGet, cacheInsert]

theorem filter_cacheInsert_self {β : Type} (k : MessageId) (v : β) (m : Cache β) :
    ((cacheInsert k v m).filter (fun p => p.1 == k)).length = 1 := by
  have h : ∀ l : Cache β,
      (l.filter (fun p => p.1 != k)).filter (fun p => p.1 == k) = [] := by
    intro l
    induction l with
    | nil => rfl
    | cons a l ih =>
      by_cases ha : a.1 = k
      · simp [List.filter_cons, ha, ih]
      · simp [List.filter_cons, ha, ih]
  simp [cacheInsert, List.filter_cons, h]

theorem isPrefixOfChars_append (l r : List Char) : l.isPrefixOf (l ++ r) = true := by
  induction l with
  | nil => cases r <;> rfl
  | cons c cs ih => simp [List.isPrefixOf, ih]

theorem widen_no_entry (u2 : UserId) (mid : MessageId) (rr : RenderResult) (s : BotState)
    (h : cacheGet mid s.widenCache = none) :
    handle_widen_button_click u2 mid rr s = (s, [.answerUnknown], .unknownButton) := by
  unfold handle_widen_button_click
  rw [h]

theorem widen_wrong_owner (u2 : UserId) (mid : MessageId) (rr : RenderResult) (s : BotState)
    (info : WidenInfo) (h : cacheGet mid s.widenCache = some info)
    (hne : info.owner ≠ u2) :
    handle_widen_button_click u2 mid rr s = (s, [.answerNotAllowed], .notAllowed) := by
  unfold handle_widen_button_click
  rw [h]
  have hb : (info.owner != u2) = true := bne_iff_ne.mpr hne
  simp only [hb, if_true]

theorem delete_click_ignores_state (invoker : UserId) (mid : MessageId) (customId : String)
    (s1 s2 : BotState) :
    (handle_delete_button_click invoker mid customId s1).2 =
      (handle_delete_button_click invoker mid customId s2).2 ∧
    (handle_delete_button_click invoker mid customId s1).1 = s1 := by
  unfold handle_delete_button_click
  cases extractDeleteOwner customId with
  | none => exact ⟨rfl, rfl⟩
  | some a => cases ha : a == invoker <;> simp [ha]

theorem dispatch_deleteCustomId (u1 u2 : UserId) (mid : MessageId) (rr : RenderResult)
    (s : BotState) (h : u1 < 2 ^ 64) :
    handle_component_interaction u2 mid (deleteCustomId u1) rr s =
      if u1 = u2 then (s, [.deleteMessage mid], .deleted)
      else (s, [.answerNotAllowed], .notAllowed) := by
  unfold handle_component_interaction
  have hdata : (deleteCustomId u1).data = "delete".data ++ (natDecimalString u1).data := by
    rw [deleteCustomId, String.data_append]
  have hpre : "delete".data.isPrefixOf (deleteCustomId u1).data = true := by
    rw [hdata]
    exact isPrefixOfChars_append "delete".data (natDecimalString u1).data
  rw [hpre, if_pos rfl]
  unfold handle_delete_button_click
  rw [extractDeleteOwner_roundtrip h]
  by_cases he : u1 = u2
  · simp [he]
  · have hb : (u1 == u2) = false := beq_eq_false_iff_ne.mpr he
    simp [hb, he]

theorem tex_renderedCache (author : UserId) (mid : MessageId) (content : String)
    (env : TexEnv) (s : BotState) :
    (tex_context_menu author mid content env s).1.renderedCache =
      cacheInsert mid env.responseId s.renderedCache := by
  unfold tex_context_menu
  rcases env.render with ⟨png, ov⟩ | m | ⟨k, m⟩
  · cases ov <;> simp
  · simp
  · simp

theorem tex_events (author : UserId) (mid : MessageId) (content : String)
    (env : TexEnv) (s : BotState) :
    ∃ rest : List BotEvent,
      (tex_context_menu author mid content env s).2 =
        (match cacheGet mid s.renderedCache with
          | some prev => [BotEvent.deleteMessage prev]
          | none => []) ++ rest ∧
      BotEvent.registerRendered mid env.responseId ∈ rest := by
  unfold tex_context_menu
  rcases env.render with ⟨png, ov⟩ | m | ⟨k, m⟩
  · cases ov
    · exact ⟨[.sendImageReply png [deleteCustomId author],
        .registerRendered mid env.responseId], by simp, by simp⟩
    · exact ⟨[.sendImageReply png [deleteCustomId author, widenCustomId author],
        .registerRendered mid env.responseId,
        .registerWiden mid ⟨author, content⟩], by simp, by simp⟩
  · exact ⟨[.sendErrorReply (.engineError m),
      .registerRendered mid env.responseId], by simp, by simp⟩
  · exact ⟨[.sendErrorReply (.infraError k m),
      .registerRendered mid env.responseId], by simp, by simp⟩

/-- Claim C3 (code-bug exhibit): an overflow render for inbound message 1
answered by bot response 2 registers the WidenEntry under the INBOUND id 1 —
not under the response id 2 that the widen lookup (`cmd.message.id`) uses —
so the widen click on the response resolves to the unknown-button notice;
non-overflow and error renders register no WidenEntry at all. -/
theorem c3_widen_registered_under_inbound_id :
    (tex_context_menu 42 1 "src" ⟨.ok [9] true, 2, true⟩ emptyBotState).1.widenCache =
      [(1, ⟨42, "src"⟩)] ∧
    cacheGet 2 (tex_context_menu 42 1 "src" ⟨.ok [9] true, 2, true⟩ emptyBotState).1.widenCache =
      none ∧
    (handle_widen_button_click 42 2 (.ok [9] true)
        (tex_context_menu 42 1 "src" ⟨.ok [9] true, 2, true⟩ emptyBotState).1).2.2 =
      .unknownButton ∧
    (tex_context_menu 42 1 "src" ⟨.ok [9] false, 2, true⟩ emptyBotState).1.widenCache = [] ∧
    (tex_context_menu 42 1 "src" ⟨.engineError [65], 2, true⟩ emptyBotState).1.widenCache =
      [] := by
  decide

/-- Counterexample to claim C4: the widen action's outcome is not a function
of the action identifier and the invoker alone — for the same identifier
`widen7` and the same invoker 7, the empty cache (as after a restart) yields
the unknown-button outcome while a cache holding a WidenEntry for the
button's message yields acceptance. -/
theorem c4_counterexample :
    (handle_component_interaction 7 5 (widenCustomId 7) (.ok [1] false) emptyBotState).2.2 =
      .unknownButton ∧
    (handle_component_interaction 7 5 (widenCustomId 7) (.ok [1] false)
        ⟨[], [(5, ⟨7, "x"⟩)]⟩).2.2 = .widened [1] ∧
    InteractionOutcome.unknownButton ≠ .widened [1] := by
  decide

/-- Claim C4 as amended: the delete action's authorization decision is a
function only of the action identifier and the invoker and mutates no state;
the widen action's decision instead reads the widen cache: with no entry for
the button's message it resolves to the unknown-button outcome, and with an
entry it compares the invoker to the CACHED owner (denying on mismatch),
rather than to the identity embedded in the identifier. -/
theorem c4_authorization_cache_dependence :
    (∀ (invoker : UserId) (mid : MessageId) (customId : String) (s1 s2 : BotState),
      (handle_delete_button_click invoker mid customId s1).2 =
        (handle_delete_button_click invoker mid customId s2).2) ∧
    (∀ (invoker : UserId) (mid : MessageId) (customId : String) (s : BotState),
      (handle_delete_button_click invoker mid customId s).1 = s) ∧
    (∀ (invoker : UserId) (mid : MessageId) (rr : RenderResult) (s : BotState),
      cacheGet mid s.widenCache = none →
      handle_widen_button_click invoker mid rr s = (s, [.answerUnknown], .unknownButton)) ∧
    (∀ (invoker : UserId) (mid : MessageId) (rr : RenderResult) (s : BotState)
        (info : WidenInfo),
      cacheGet mid s.widenCache = some info → info.owner ≠ invoker →
      handle_widen_button_click invoker mid rr s = (s, [.answerNotAllowed], .notAllowed)) := by
  refine ⟨?_, ?_, ?_, ?_⟩
  · intro invoker mid customId s1 s2
    exact ((delete_click_ignores_state invoker mid customId s1 s2).1)
  · intro invoker mid customId s
    exact ((delete_click_ignores_state invoker mid customId s s).2)
  · intro invoker mid rr s h
    exact widen_no_entry invoker mid rr s h
  · intro invoker mid rr s info h hne
    exact widen_wrong_owner invoker mid rr s info h hne

/-- Witness for C4 as amended at concrete states and identifiers. -/
theorem c4_authorization_cache_dependence_witness :
    (handle_delete_button_click 2 5 (deleteCustomId 1) emptyBotState).2 =
      (handle_delete_button_click 2 5 (deleteCustomId 1) ⟨[(9, 9)], []⟩).2 ∧
    (handle_delete_button_click 2 5 (deleteCustomId 1) emptyBotState).1 = emptyBotState ∧
    handle_widen_button_click 2 5 (.ok [1] false) emptyBotState =
      (emptyBotState, [.answerUnknown], .unknownButton) ∧
    handle_widen_button_click 2 5 (.ok [1] false) ⟨[], [(5, ⟨1, "x"⟩)]⟩ =
      (⟨[], [(5, ⟨1, "x"⟩)]⟩, [.answerNotAllowed], .notAllowed) :=
  ⟨c4_authorization_cache_dependence.1 2 5 (deleteCustomId 1) emptyBotState ⟨[(9, 9)], []⟩,
    c4_authorization_cache_dependence.2.1 2 5 (deleteCustomId 1) emptyBotState,
    c4_authorization_cache_dependence.2.2.1 2 5 (.ok [1] false) emptyBotState rfl,
    c4_authorization_cache_dependence.2.2.2 2 5 (.ok [1] false) ⟨[], [(5, ⟨1, "x"⟩)]⟩
      ⟨1, "x"⟩ rfl (by decide)⟩

/-- Counterexample to claim C6: the action identifier `widen1` encodes owner
1, the invoker is 2 ≠ 1, yet the invocation yields the unknown-button
outcome (empty widen cache, as after a restart), not the authorization
denial. -/
theorem c6_counterexample :
    (handle_component_interaction 2 5 (widenCustomId 1) (.ok [1] false) emptyBotState).2.2 =
      .unknownButton ∧
    InteractionOutcome.unknownButton ≠ .notAllowed := by
  decide

/-- Claim C6 as amended: for the delete action the claim holds exactly — an
identifier encoding owner U1 invoked by U2 ≠ U1 yields the not-allowed
notice with no deletion and no cache mutation, and the deletion is accepted
only when the invoker is U1; for the widen action the compared identity is
the cached WidenEntry's owner rather than the one embedded in the
identifier: a cached owner differing from the invoker yields the not-allowed
notice with no mutation, and a missing entry yields the unknown-button
notice. -/
theorem c6_ownership_check :
    (∀ (u1 u2 : UserId) (mid : MessageId) (rr : RenderResult) (s : BotState),
      u1 < 2 ^ 64 → u1 ≠ u2 →
      handle_component_interaction u2 mid (deleteCustomId u1) rr s =
        (s, [.answerNotAllowed], .notAllowed)) ∧
    (∀ (u1 : UserId) (mid : MessageId) (rr : RenderResult) (s : BotState),
      u1 < 2 ^ 64 →
      handle_component_interaction u1 mid (deleteCustomId u1) rr s =
        (s, [.deleteMessage mid], .deleted)) ∧
    (∀ (u1 u2 : UserId) (mid : MessageId) (rr : RenderResult) (s : BotState),
      u1 < 2 ^ 64 →
      (handle_component_interaction u2 mid (deleteCustomId u1) rr s).2.2 = .deleted →
      u2 = u1) ∧
    (∀ (u2 : UserId) (mid : MessageId) (rr : RenderResult) (s : BotState)
        (info : WidenInfo),
      cacheGet mid s.widenCache = some info → info.owner ≠ u2 →
      handle_widen_button_click u2 mid rr s = (s, [.answerNotAllowed], .notAllowed)) ∧
    (∀ (u2 : UserId) (mid : MessageId) (rr : RenderResult) (s : BotState),
      cacheGet mid s.widenCache = none →
      handle_widen_button_click u2 mid rr s = (s, [.answerUnknown], .unknownButton)) := by
  refine ⟨?_, ?_, ?_, ?_, ?_⟩
  · intro u1 u2 mid rr s h hne
    rw [dispatch_deleteCustomId u1 u2 mid rr s h, if_neg hne]
  · intro u1 mid rr s h
    rw [dispatch_deleteCustomId u1 u1 mid rr s h, if_pos rfl]
  · intro u1 u2 mid rr s h hdel
    by_cases he : u1 = u2
    · exact he.symm
    · rw [dispatch_deleteCustomId u1 u2 mid rr s h, if_neg he] at hdel
      exact absurd hdel (by simp)
  · intro u2 mid rr s info h hne
    exact widen_wrong_owner u2 mid rr s info h hne
  · intro u2 mid rr s h
    exact widen_no_entry u2 mid rr s h

/-- Witness for C6 as amended at concrete owners 1 and 2. -/
theorem c6_ownership_check_witness :
    handle_component_interaction 2 5 (deleteCustomId 1) (.ok [1] false) emptyBotState =
      (emptyBotState, [.answerNotAllowed], .notAllowed) ∧
    handle_component_interaction 1 5 (deleteCustomId 1) (.ok [1] false) emptyBotState =
      (emptyBotState, [.deleteMessage 5], .deleted) ∧
    (1 : UserId) = 1 ∧
    handle_widen_button_click 2 5 (.ok [1] false) ⟨[], [(5, ⟨1, "x"⟩)]⟩ =
      (⟨[], [(5, ⟨1, "x"⟩)]⟩, [.answerNotAllowed], .notAllowed) ∧
    handle_widen_button_click 2 5 (.ok [1] false) emptyBotState =
      (emptyBotState, [.answerUnknown], .unknownButton) :=
  ⟨c6_ownership_check.1 1 2 5 (.ok [1] false) emptyBotState (by norm_num) (by decide),
    c6_ownership_check.2.1 1 5 (.ok [1] false) emptyBotState (by norm_num),
    c6_ownership_check.2.2.1 1 1 5 (.ok [1] false) emptyBotState (by norm_num)
      (by rw [c6_ownership_check.2.1 1 5 (.ok [1] false) emptyBotState (by norm_num)]),
    c6_ownership_check.2.2.2.1 2 5 (.ok [1] false) ⟨[], [(5, ⟨1, "x"⟩)]⟩ ⟨1, "x"⟩ rfl
      (by decide),
    c6_ownership_check.2.2.2.2 2 5 (.ok [1] false) emptyBotState rfl⟩

/-- Claim C7 (code-bug exhibit): a widen click by the owner whose wide
re-render fails resolves to the panic marker — the source unwraps the
re-render result (`.unwrap()` on `render_latex`, discord.rs:317-324) instead
of reporting an error outcome; the timeout kill, in contrast, is attempted
on deadline expiry regardless of whether it succeeds. -/
theorem c7_widen_rerender_panics :
    (handle_widen_button_click 7 5 (.infraError .timeout timeoutMsg)
        ⟨[], [(5, ⟨7, "x"⟩)]⟩).2.2 = .panicked ∧
    (render_latex 3 "img"
        ⟨true, "", "", true, "", true, true, "", false, ⟨true, "", [], "", ""⟩⟩).1 =
      [.pull "img", .spawn (containerName 3), .kill (containerName 3)] := by
  decide

/-- Claim C9: rendering the same inbound message a second time first looks up
the previously registered response and attempts its best-effort delete (the
first emitted event) strictly before the new response is registered (an
event of the remaining trace); afterwards the correlation cache holds
exactly one live entry for that inbound id, mapping to the newest response;
and the run is unchanged by whether the best-effort delete succeeded. -/
theorem c9_rerender_supersession (a1 a2 : UserId) (t1 t2 : String)
    (mid : MessageId) (env1 env2 : TexEnv) (s0 : BotState) :
    ((tex_context_menu a2 mid t2 env2 (tex_context_menu a1 mid t1 env1 s0).1).2).head? =
      some (.deleteMessage env1.responseId) ∧
    BotEvent.registerRendered mid env2.responseId ∈
      ((tex_context_menu a2 mid t2 env2 (tex_context_menu a1 mid t1 env1 s0).1).2).tail ∧
    ((tex_context_menu a2 mid t2 env2
        (tex_context_menu a1 mid t1 env1 s0).1).1.renderedCache.filter
        (fun p => p.1 == mid)).length = 1 ∧
    cacheGet mid (tex_context_menu a2 mid t2 env2
        (tex_context_menu a1 mid t1 env1 s0).1).1.renderedCache =
      some env2.responseId ∧
    (∀ b1 b2 : Bool,
      tex_context_menu a2 mid t2 ⟨env2.render, env2.responseId, b1⟩
          (tex_context_menu a1 mid t1 ⟨env1.render, env1.responseId, b2⟩ s0).1 =
        tex_context_menu a2 mid t2 env2 (tex_context_menu a1 mid t1 env1 s0).1) := by
  have hget : cacheGet mid (tex_context_menu a1 mid t1 env1 s0).1.renderedCache =
      some env1.responseId := by
    rw [tex_renderedCache a1 mid t1 env1 s0]
    exact cacheGet_insert_self mid env1.responseId s0.renderedCache
  obtain ⟨rest, hev, hmem⟩ :=
    tex_events a2 mid t2 env2 (tex_context_menu a1 mid t1 env1 s0).1
  rw [hget] at hev
  refine ⟨?_, ?_, ?_, ?_, ?_⟩
  · rw [hev]
    rfl
  · rw [hev]
    exact hmem
  · rw [tex_renderedCache a2 mid t2 env2 (tex_context_menu a1 mid t1 env1 s0).1]
    exact filter_cacheInsert_self mid env2.responseId _
  · rw [tex_renderedCache a2 mid t2 env2 (tex_context_menu a1 mid t1 env1 s0).1]
    exact cacheGet_insert_self mid env2.responseId _
  · intro b1 b2
    rfl

end Latexfogel
